import Mathlib

/-!
SatRbedo: the registration glue of `src/init.c`

`init.c` declares one native routine (`doshade`, through `F77_NAME`), builds the
static table `FortranEntries` and, in `R_init_SatRbedo`, hands that table to the
host runtime and switches dynamic symbol lookup off.

The file embeds the declaration, the table and the entry point as they are
written in `init.c`.  The host runtime itself (its module records, its
`R_registerRoutines` / `R_useDynamicSymbols` facilities and its call dispatch)
is not part of the repository; it is modelled separately, and the definitions
of that model are marked as modelled in their doc comments.
-/

namespace SatRbedo

/-! ## Declarations of `init.c` -/

/-- C types that occur in the declarations of `init.c`. -/
inductive CType where
  | void
  | voidPtr
deriving DecidableEq, Repr

/-- Modelled from the spec: link-level symbol names.  The macro `F77_NAME` comes
from `R_ext/RS.h`, a header that is not in the repository, so its expansion is
kept symbolic: `F77_NAME x` is the symbol under which the native routine `x` is
linked, whatever its spelling; `plain s` is the symbol spelled `s`. -/
inductive LinkName where
  | plain (s : String)
  | F77_NAME (x : String)
deriving DecidableEq, Repr

/-- An `extern` function declaration: linked symbol, return type and the
parameter list as written. -/
structure ExternDecl where
  link : LinkName
  ret : CType
  params : List CType
deriving DecidableEq, Repr

/-- Line 10 of `init.c`:
`extern void F77_NAME(doshade)(void *, void *, void *, void *, void *, void *);` -/
def doshade : ExternDecl :=
  { link := LinkName.F77_NAME "doshade"
    ret := CType.void
    params := [CType.voidPtr, CType.voidPtr, CType.voidPtr,
               CType.voidPtr, CType.voidPtr, CType.voidPtr] }

/-- Modelled from the spec: the type `DL_FUNC` of `R_ext/Rdynload.h`, a header
that is not in the repository: the spec's "opaque native address", an untyped
function pointer that is either `NULL` or the address of a linked symbol. -/
inductive DL_FUNC where
  | null
  | addr (sym : LinkName)
deriving DecidableEq, Repr

/-- The expression `(DL_FUNC) &f` for a declared function `f`: the address of the
symbol, with the prototype erased by the cast. -/
def addrOf (f : ExternDecl) : DL_FUNC := DL_FUNC.addr f.link

/-- Modelled from the spec: the type `R_FortranMethodDef` of `R_ext/Rdynload.h`,
a header that is not in the repository: the spec's RoutineDescriptor (exported
name, native function pointer, arity), with the members in the order in which
the initialisers of `init.c` fill them.  A `NULL` name is `none`; the member the
header calls `fun` is `fn` here. -/
structure R_FortranMethodDef where
  name : Option String
  fn : DL_FUNC
  numArgs : Int
deriving DecidableEq, Repr

/-- Lines 12-15 of `init.c`:
```
static const R_FortranMethodDef FortranEntries[] = {
    {"doshade", (DL_FUNC) &F77_NAME(doshade), 6},
    {NULL, NULL, 0}
};
```
A C array is a list; reading past its end is out of bounds. -/
def FortranEntries : List R_FortranMethodDef :=
  [ { name := some "doshade", fn := addrOf doshade, numArgs := 6 },
    { name := none, fn := DL_FUNC.null, numArgs := 0 } ]

/-! ## The host runtime (not in the repository) -/

/-- Modelled from the spec: the opaque module handle `DllInfo *` the host passes
to the entry point (the type is declared by the host, not in the repository):
`none` is `NULL`, `some a` is the address `a`. -/
abbrev DllPtr := Option Nat

/-- Modelled from the spec: the call interfaces of the host, one for each table
parameter of its register-routines facility (.C, .Call, .Fortran, .External). -/
inductive Interface where
  | C
  | Call
  | Fortran
  | External
deriving DecidableEq, Repr

/-- Modelled from the spec: the host's per-module registration state, which the
host runtime (not in the repository) keeps behind the opaque module handle: the
flag that enables the fallback dynamic lookup, one table of registered routine
descriptors for each call interface, and the symbols the loaded object itself
exports (what a dynamic lookup searches). -/
structure DllInfo where
  useDynamicSymbols : Bool
  CSymbols : List R_FortranMethodDef
  CallSymbols : List R_FortranMethodDef
  FortranSymbols : List R_FortranMethodDef
  ExternalSymbols : List R_FortranMethodDef
  exports : List LinkName
deriving DecidableEq, Repr

/-- Modelled from the spec: one call into the host runtime, with its actual
arguments (`none` for a `NULL` argument).  The four table parameters of
register-routines are all tables of routine descriptors. -/
inductive HostCall where
  | R_registerRoutines (info : DllPtr)
      (croutines : Option (List R_FortranMethodDef))
      (callRoutines : Option (List R_FortranMethodDef))
      (fortranRoutines : Option (List R_FortranMethodDef))
      (externalRoutines : Option (List R_FortranMethodDef))
  | R_useDynamicSymbols (info : DllPtr) (value : Bool)
deriving DecidableEq, Repr

/-- Modelled from the spec: the ways a host call ends without returning: the
host's own error for a null module handle, or a native fault (dereferencing a
pointer to no module, reading a table past its end). -/
inductive HostError where
  | invalidDllInfo
  | fault
deriving DecidableEq, Repr

/-- Modelled from the spec: the process-wide state of the host runtime: the
loaded modules by address, and the history of host calls made so far (oldest
first). -/
structure Host where
  dlls : Nat → Option DllInfo
  log : List HostCall

/-- Result of running code against the host: the host state it leaves and
either the returned value or the error that unwound it. -/
abbrev Ran (α : Type) := Host × Except HostError α

/-- Store `info` at address `a`. -/
def Host.store (h : Host) (a : Nat) (info : DllInfo) : Host :=
  { h with dlls := fun b => if b = a then some info else h.dlls b }

/-- Append a call to the history. -/
def Host.record (h : Host) (c : HostCall) : Host :=
  { h with log := h.log ++ [c] }

/-- Modelled from the spec: the host's scan of a sentinel-terminated routine
table (host code, not in the repository): starting at index `num`, advance
until the first element whose name is `NULL` and return its index.  Running off
the end of the array without meeting a sentinel is an out-of-bounds read
(`none`). -/
def scanRoutines : List R_FortranMethodDef → Nat → Option Nat
  | [], _ => none
  | e :: rest, num => if e.name = none then some num else scanRoutines rest (num + 1)

/-- Modelled from the spec: installing one optional table (host code, not in the
repository).  A `NULL` table leaves the module's current table as it is;
otherwise the descriptors before the sentinel replace it. -/
def installRoutines (old : List R_FortranMethodDef) :
    Option (List R_FortranMethodDef) → Option (List R_FortranMethodDef)
  | none => some old
  | some tbl => (scanRoutines tbl 0).map fun num => tbl.take num

/-- Modelled from the spec: what the host's register-routines does to a module
record (host code, not in the repository): each non-null table is installed, and
the fallback lookup is put back to the host's default, enabled, so that only a
later call that disables it leaves it off.  `none` when a table has no
sentinel. -/
def registerInto (info : DllInfo)
    (croutines callRoutines fortranRoutines externalRoutines :
      Option (List R_FortranMethodDef)) : Option DllInfo :=
  match installRoutines info.CSymbols croutines,
        installRoutines info.CallSymbols callRoutines,
        installRoutines info.FortranSymbols fortranRoutines,
        installRoutines info.ExternalSymbols externalRoutines with
  | some c, some cl, some f, some e =>
      some { info with useDynamicSymbols := true, CSymbols := c, CallSymbols := cl,
                       FortranSymbols := f, ExternalSymbols := e }
  | _, _, _, _ => none

/-- Modelled from the spec: the host's "register routines" facility
(`R_registerRoutines`, declared in `R_ext/Rdynload.h`, defined in the host
runtime and not in the repository).  The call is recorded in the history; a null
handle is refused with the host's own error; otherwise the tables are installed
in the module the handle points at and 1 is returned. -/
def R_registerRoutines (info : DllPtr)
    (croutines callRoutines fortranRoutines externalRoutines :
      Option (List R_FortranMethodDef)) (h : Host) : Ran Int :=
  let h1 := h.record
    (HostCall.R_registerRoutines info croutines callRoutines fortranRoutines externalRoutines)
  match info with
  | none => (h1, Except.error HostError.invalidDllInfo)
  | some a =>
    match h1.dlls a with
    | none => (h1, Except.error HostError.fault)
    | some d =>
      match registerInto d croutines callRoutines fortranRoutines externalRoutines with
      | none => (h1, Except.error HostError.fault)
      | some d1 => (h1.store a d1, Except.ok 1)

/-- Modelled from the spec: the host facility that switches the fallback dynamic
lookup of a module on or off (`R_useDynamicSymbols`, declared in
`R_ext/Rdynload.h`, defined in the host runtime and not in the repository).  The
call is recorded in the history; it stores `value` in the module's flag and
returns the old flag; it does not check its handle. -/
def R_useDynamicSymbols (info : DllPtr) (value : Bool) (h : Host) : Ran Bool :=
  let h1 := h.record (HostCall.R_useDynamicSymbols info value)
  match info with
  | none => (h1, Except.error HostError.fault)
  | some a =>
    match h1.dlls a with
    | none => (h1, Except.error HostError.fault)
    | some d => (h1.store a { d with useDynamicSymbols := value }, Except.ok d.useDynamicSymbols)

/-! ## The entry point of `init.c` -/

/-- Lines 17-21 of `init.c`:
```
void R_init_SatRbedo(DllInfo *dll)
{
    R_registerRoutines(dll, NULL, NULL, FortranEntries, NULL);
    R_useDynamicSymbols(dll, FALSE);
}
```
Two host calls in sequence, both return values discarded.  A host call that
ends in an error unwinds out of the entry point, so the statement after it is
not executed. -/
def R_init_SatRbedo (dll : DllPtr) (h : Host) : Ran Unit :=
  match R_registerRoutines dll none none (some FortranEntries) none h with
  | (h1, Except.error e) => (h1, Except.error e)
  | (h1, Except.ok _) =>
    match R_useDynamicSymbols dll false h1 with
    | (h2, Except.error e) => (h2, Except.error e)
    | (h2, Except.ok _) => (h2, Except.ok ())

/-! ## Call dispatch of the host (not in the repository) -/

/-- The table of a module record that serves the given call interface. -/
def DllInfo.table (info : DllInfo) : Interface → List R_FortranMethodDef
  | Interface.C => info.CSymbols
  | Interface.Call => info.CallSymbols
  | Interface.Fortran => info.FortranSymbols
  | Interface.External => info.ExternalSymbols

/-- Modelled from the spec: the checked path of the host's dispatch (host code,
not in the repository): the first registered descriptor of the interface with
exactly the requested name. -/
def lookupRegistered (info : DllInfo) (iface : Interface) (name : String) :
    Option R_FortranMethodDef :=
  (info.table iface).find? fun s => s.name = some name

/-- Modelled from the spec: the symbol a dynamic lookup searches for (host code,
not in the repository): the Fortran interface looks for the symbol under which
the routine of that name is linked, the other interfaces for the name itself. -/
def mangle : Interface → String → LinkName
  | Interface.Fortran, name => LinkName.F77_NAME name
  | _, name => LinkName.plain name

/-- Modelled from the spec: the fallback path of the host's dispatch (host code,
not in the repository): when the module's dynamic-lookup flag is set, search the
loaded object's own symbol table by name, with no arity information; when the
flag is off the path finds nothing. -/
def lookupDynamic (info : DllInfo) (iface : Interface) (name : String) : Option DL_FUNC :=
  if info.useDynamicSymbols then
    if mangle iface name ∈ info.exports then some (DL_FUNC.addr (mangle iface name)) else none
  else none

/-- Modelled from the spec: how the host's dispatch of one foreign call ends: the
name resolves nowhere; the name is registered with another argument count; or
the native routine is invoked through the given pointer with the given argument
handles. -/
inductive Dispatch where
  | notFound
  | arityMismatch (given : Nat) (declared : Int)
  | invoke (fn : DL_FUNC) (args : List Nat)
deriving DecidableEq, Repr

/-- Modelled from the spec: the host's dispatch of a call by name with the given
argument handles (host code, not in the repository).  The checked path is tried
first and compares the argument count with the declared arity before anything is
invoked; only a name that is not registered goes to the fallback path, which
invokes without an arity check.  The argument handles are handed on as they
are. -/
def dispatch (info : DllInfo) (iface : Interface) (name : String) (args : List Nat) :
    Dispatch :=
  match lookupRegistered info iface name with
  | some sym =>
    if sym.numArgs ≠ (args.length : Int) then
      Dispatch.arityMismatch args.length sym.numArgs
    else Dispatch.invoke sym.fn args
  | none =>
    match lookupDynamic info iface name with
    | some f => Dispatch.invoke f args
    | none => Dispatch.notFound

/-- Whether a dispatch reaches a native routine. -/
def Dispatch.reachesNative : Dispatch → Bool
  | Dispatch.invoke _ _ => true
  | _ => false

/-- Modelled from the spec: a call through a native function pointer.  The linked
routines are outside the repository, so their effect on memory is the parameter
`native`; a call through `NULL` has no defined result. -/
def DL_FUNC.call {Mem : Type} (native : LinkName → List Nat → Mem → Mem) :
    DL_FUNC → List Nat → Mem → Option Mem
  | DL_FUNC.null, _, _ => none
  | DL_FUNC.addr sym, args, m => some (native sym args m)

/-- The memory a dispatch leaves: the native call's result when a routine is
invoked, nothing when the call is rejected. -/
def Dispatch.result {Mem : Type} (native : LinkName → List Nat → Mem → Mem) :
    Dispatch → Mem → Option Mem
  | Dispatch.invoke fn args, m => fn.call native args m
  | _, _ => none

/-- A direct C call `f(a1, ..., an)` of a declared external function. -/
def callDirect {Mem : Type} (native : LinkName → List Nat → Mem → Mem)
    (f : ExternDecl) (args : List Nat) (m : Mem) : Mem :=
  native f.link args m

/-! ## Observations on the call history -/

/-- The module handle a host call was given. -/
def HostCall.handle : HostCall → DllPtr
  | HostCall.R_registerRoutines info _ _ _ _ => info
  | HostCall.R_useDynamicSymbols info _ => info

/-- Whether a host call is a register-routines call. -/
def HostCall.isRegister : HostCall → Bool
  | HostCall.R_registerRoutines _ _ _ _ _ => true
  | _ => false

/-- Whether a host call switches dynamic lookup off. -/
def HostCall.isDisable : HostCall → Bool
  | HostCall.R_useDynamicSymbols _ false => true
  | _ => false

/-- The host calls made by running `run` from `h`: what the run appended to the
history. -/
def callsOf {α : Type} (run : Host → Ran α) (h : Host) : List HostCall :=
  (run h).1.log.drop h.log.length

/-- Whether some register-routines call comes later in the history than a call
that switched dynamic lookup off. -/
def registerAfterDisable : List HostCall → Bool
  | [] => false
  | c :: cs => (c.isDisable && cs.any HostCall.isRegister) || registerAfterDisable cs

/-! ## Example states -/

/-- A module record as the loader leaves it before initialization: nothing
registered, dynamic lookup on, and the object's own symbols exported. -/
def freshDll : DllInfo :=
  { useDynamicSymbols := true, CSymbols := [], CallSymbols := [], FortranSymbols := [],
    ExternalSymbols := [],
    exports := [LinkName.F77_NAME "doshade", LinkName.plain "R_init_SatRbedo"] }

/-- A host with the one fresh module loaded at address 7 and an empty history. -/
def freshHost : Host :=
  { dlls := fun b => if b = 7 then some freshDll else none, log := [] }

end SatRbedo

/-! ## Theorems -/

namespace SatRbedo

/-- The two host calls of the entry point, as it makes them for the handle `a`. -/
theorem init_log (h : Host) (a : Nat) (d : DllInfo) (hd : h.dlls a = some d) :
    (R_init_SatRbedo (some a) h).1.log =
      h.log ++ [HostCall.R_registerRoutines (some a) none none (some FortranEntries) none,
                HostCall.R_useDynamicSymbols (some a) false] := by
  simp [R_init_SatRbedo, R_registerRoutines, R_useDynamicSymbols, Host.record, Host.store, hd,
    registerInto, installRoutines, scanRoutines, FortranEntries]

/-- On a loaded module the entry point returns normally. -/
theorem init_ok (h : Host) (a : Nat) (d : DllInfo) (hd : h.dlls a = some d) :
    (R_init_SatRbedo (some a) h).2 = Except.ok () := by
  simp [R_init_SatRbedo, R_registerRoutines, R_useDynamicSymbols, Host.record, Host.store, hd,
    registerInto, installRoutines, scanRoutines, FortranEntries]

/-- The module record the entry point leaves behind the handle `a`. -/
theorem init_dll (h : Host) (a : Nat) (d : DllInfo) (hd : h.dlls a = some d) :
    (R_init_SatRbedo (some a) h).1.dlls a =
      some { d with useDynamicSymbols := false,
                    FortranSymbols := [{ name := some "doshade", fn := addrOf doshade, numArgs := 6 }] } := by
  simp [R_init_SatRbedo, R_registerRoutines, R_useDynamicSymbols, Host.record, Host.store, hd,
    registerInto, installRoutines, scanRoutines, FortranEntries]

/-- Modules other than the one behind the handle are left as they were. -/
theorem init_other (h : Host) (a b : Nat) (d : DllInfo) (hd : h.dlls a = some d) (hb : b ≠ a) :
    (R_init_SatRbedo (some a) h).1.dlls b = h.dlls b := by
  simp [R_init_SatRbedo, R_registerRoutines, R_useDynamicSymbols, Host.record, Host.store, hd,
    registerInto, installRoutines, scanRoutines, FortranEntries, hb]

/-- Looking a name up in the one-entry Fortran table: found exactly for "doshade". -/
theorem lookup_single (d : DllInfo) (name : String)
    (hf : d.FortranSymbols = [{ name := some "doshade", fn := addrOf doshade, numArgs := 6 }]) :
    lookupRegistered d Interface.Fortran name =
      if name = "doshade" then some { name := some "doshade", fn := addrOf doshade, numArgs := 6 }
      else none := by
  by_cases hn : name = "doshade"
  · simp [lookupRegistered, DllInfo.table, hf, hn]
  · have hn' : ¬ ("doshade" = name) := fun e => hn e.symm
    simp [lookupRegistered, DllInfo.table, hf, hn, hn']

/-- With the dynamic-lookup flag off, the fallback path finds nothing. -/
theorem lookupDynamic_off (d : DllInfo) (iface : Interface) (name : String)
    (hoff : d.useDynamicSymbols = false) : lookupDynamic d iface name = none := by
  simp [lookupDynamic, hoff]

/-- A call to "doshade" against the one-entry Fortran table: invoked with exactly
six argument handles, an arity mismatch otherwise. -/
theorem dispatch_doshade (d : DllInfo) (args : List Nat)
    (hf : d.FortranSymbols = [{ name := some "doshade", fn := addrOf doshade, numArgs := 6 }]) :
    dispatch d Interface.Fortran "doshade" args =
      if args.length = 6 then Dispatch.invoke (addrOf doshade) args
      else Dispatch.arityMismatch args.length 6 := by
  have hl := lookup_single d "doshade" hf
  simp only [if_true] at hl
  by_cases hlen : args.length = 6
  · simp [dispatch, hl, hlen]
  · have hne : ¬ ((6 : Int) = (args.length : Int)) := by omega
    simp [dispatch, hl, hlen, hne]

/-- A name the checked lookup does not find is not found at all once the
dynamic-lookup flag is off. -/
theorem dispatch_unregistered (d : DllInfo) (iface : Interface) (name : String)
    (args : List Nat) (hoff : d.useDynamicSymbols = false)
    (hnone : lookupRegistered d iface name = none) :
    dispatch d iface name args = Dispatch.notFound := by
  simp [dispatch, hnone, lookupDynamic_off d iface name hoff]

/-- C1: after `R_init_SatRbedo` on a loaded module, whatever was registered
before, the module's registered Fortran table is exactly the one descriptor
("doshade", the native symbol, arity 6); the checked lookup finds that
descriptor for "doshade" and nothing for every other name; and in a module that
had nothing registered for the other interfaces, the checked lookup over all
interfaces succeeds for the Fortran name "doshade" only. -/
theorem C1_registered_exactly_doshade (h : Host) (a : Nat) (d : DllInfo)
    (hd : h.dlls a = some d) :
    (R_init_SatRbedo (some a) h).2 = Except.ok () ∧
    ∃ d1, (R_init_SatRbedo (some a) h).1.dlls a = some d1 ∧
      d1.FortranSymbols = [{ name := some "doshade", fn := addrOf doshade, numArgs := 6 }] ∧
      lookupRegistered d1 Interface.Fortran "doshade" =
        some { name := some "doshade", fn := addrOf doshade, numArgs := 6 } ∧
      (∀ name, name ≠ "doshade" → lookupRegistered d1 Interface.Fortran name = none) ∧
      (d.CSymbols = [] → d.CallSymbols = [] → d.ExternalSymbols = [] →
        ∀ iface name, (lookupRegistered d1 iface name).isSome = true ↔
          (iface = Interface.Fortran ∧ name = "doshade")) := by
  refine ⟨init_ok h a d hd, _, init_dll h a d hd, rfl, ?_, ?_, ?_⟩
  · rw [lookup_single _ _ rfl]; simp
  · intro name hn
    rw [lookup_single _ _ rfl]; simp [hn]
  · intro hc hcl he iface name
    cases iface
    · simp [lookupRegistered, DllInfo.table, hc]
    · simp [lookupRegistered, DllInfo.table, hcl]
    · rw [lookup_single _ _ rfl]
      by_cases hn : name = "doshade" <;> simp [hn]
    · simp [lookupRegistered, DllInfo.table, he]

/-- C1 at the fresh host: the module at address 7 ends with the single "doshade"
descriptor registered. -/
theorem C1_registered_exactly_doshade_witness :
    freshHost.dlls 7 = some freshDll ∧
    (R_init_SatRbedo (some 7) freshHost).2 = Except.ok () ∧
    ∃ d1, (R_init_SatRbedo (some 7) freshHost).1.dlls 7 = some d1 ∧
      d1.FortranSymbols = [{ name := some "doshade", fn := addrOf doshade, numArgs := 6 }] ∧
      (∀ name, name ≠ "doshade" → lookupRegistered d1 Interface.Fortran name = none) ∧
      (∀ iface name, (lookupRegistered d1 iface name).isSome = true ↔
          (iface = Interface.Fortran ∧ name = "doshade")) := by
  have hd : freshHost.dlls 7 = some freshDll := by decide
  obtain ⟨hok, d1, h1, h2, _, h4, h5⟩ := C1_registered_exactly_doshade freshHost 7 freshDll hd
  exact ⟨hd, hok, d1, h1, h2, h4, h5 rfl rfl rfl⟩

/-- C2: after `R_init_SatRbedo` on a loaded module, whatever its dynamic-lookup
flag was before, the flag is FALSE; the fallback path then finds nothing for any
name on any interface, and a call to any name the checked lookup does not find
ends as not found. -/
theorem C2_dynamic_lookup_disabled (h : Host) (a : Nat) (d : DllInfo)
    (hd : h.dlls a = some d) :
    ∃ d1, (R_init_SatRbedo (some a) h).1.dlls a = some d1 ∧
      d1.useDynamicSymbols = false ∧
      (∀ iface name, lookupDynamic d1 iface name = none) ∧
      (∀ iface name args, lookupRegistered d1 iface name = none →
        dispatch d1 iface name args = Dispatch.notFound) := by
  refine ⟨_, init_dll h a d hd, rfl, ?_, ?_⟩
  · intro iface name
    exact lookupDynamic_off _ _ _ rfl
  · intro iface name args hnone
    exact dispatch_unregistered _ iface name args rfl hnone

/-- C2 at the fresh host, whose module starts with dynamic lookup on and exports
`R_init_SatRbedo`: before initialization the fallback path resolves that name,
afterwards the flag is off and the same call is not found. -/
theorem C2_dynamic_lookup_disabled_witness :
    freshHost.dlls 7 = some freshDll ∧
    freshDll.useDynamicSymbols = true ∧
    dispatch freshDll Interface.C "R_init_SatRbedo" [] =
      Dispatch.invoke (DL_FUNC.addr (LinkName.plain "R_init_SatRbedo")) [] ∧
    ∃ d1, (R_init_SatRbedo (some 7) freshHost).1.dlls 7 = some d1 ∧
      d1.useDynamicSymbols = false ∧
      lookupDynamic d1 Interface.C "R_init_SatRbedo" = none := by
  have hd : freshHost.dlls 7 = some freshDll := by decide
  obtain ⟨d1, h1, h2, h3, _⟩ := C2_dynamic_lookup_disabled freshHost 7 freshDll hd
  exact ⟨hd, rfl, by decide, d1, h1, h2, h3 _ _⟩

/-- C3: against the table installed by `R_init_SatRbedo`, a call to "doshade"
with argument handles `args` reaches the native routine if and only if there are
exactly 6 of them; with any other count, fewer or more, it ends as an arity
mismatch against the declared 6 and nothing is invoked. -/
theorem C3_arity_six_only (h : Host) (a : Nat) (d : DllInfo) (hd : h.dlls a = some d)
    (args : List Nat) :
    ∃ d1, (R_init_SatRbedo (some a) h).1.dlls a = some d1 ∧
      ((dispatch d1 Interface.Fortran "doshade" args).reachesNative = true ↔ args.length = 6) ∧
      (args.length = 6 →
        dispatch d1 Interface.Fortran "doshade" args = Dispatch.invoke (addrOf doshade) args) ∧
      (args.length < 6 ∨ args.length > 6 →
        dispatch d1 Interface.Fortran "doshade" args = Dispatch.arityMismatch args.length 6) := by
  refine ⟨_, init_dll h a d hd, ?_, ?_, ?_⟩
  · rw [dispatch_doshade _ args rfl]
    by_cases hlen : args.length = 6 <;> simp [hlen, Dispatch.reachesNative]
  · intro hlen
    rw [dispatch_doshade _ args rfl]; simp [hlen]
  · intro hlen
    have hne : ¬ (args.length = 6) := by omega
    rw [dispatch_doshade _ args rfl]; simp [hne]

/-- C3 at the fresh host: six handles are accepted, five and seven are rejected. -/
theorem C3_arity_six_only_witness :
    freshHost.dlls 7 = some freshDll ∧
    ∃ d1, (R_init_SatRbedo (some 7) freshHost).1.dlls 7 = some d1 ∧
      dispatch d1 Interface.Fortran "doshade" [10, 20, 30, 40, 50, 60] =
        Dispatch.invoke (addrOf doshade) [10, 20, 30, 40, 50, 60] ∧
      dispatch d1 Interface.Fortran "doshade" [10, 20, 30, 40, 50] =
        Dispatch.arityMismatch 5 6 ∧
      dispatch d1 Interface.Fortran "doshade" [10, 20, 30, 40, 50, 60, 70] =
        Dispatch.arityMismatch 7 6 := by
  have hd : freshHost.dlls 7 = some freshDll := by decide
  have e : (R_init_SatRbedo (some 7) freshHost).1.dlls 7 = some
      { freshDll with useDynamicSymbols := false,
                      FortranSymbols := [{ name := some "doshade", fn := addrOf doshade, numArgs := 6 }] } :=
    init_dll freshHost 7 freshDll hd
  obtain ⟨d1, h1, _, h3, _⟩ := C3_arity_six_only freshHost 7 freshDll hd [10, 20, 30, 40, 50, 60]
  refine ⟨hd, d1, h1, h3 rfl, ?_, ?_⟩
  · rw [e] at h1; cases h1; decide
  · rw [e] at h1; cases h1; decide

/-- The host calls the entry point makes on a loaded module. -/
theorem init_calls (h : Host) (a : Nat) (d : DllInfo) (hd : h.dlls a = some d) :
    callsOf (R_init_SatRbedo (some a)) h =
      [HostCall.R_registerRoutines (some a) none none (some FortranEntries) none,
       HostCall.R_useDynamicSymbols (some a) false] := by
  simp [callsOf, init_log h a d hd]

/-- C4: the "doshade" descriptor of `FortranEntries` points at the declared
native routine and carries as its arity the number of parameters of that
declaration, which has exactly six; no other descriptor of the table points at
the routine. -/
theorem C4_arity_matches_declaration :
    doshade.params.length = 6 ∧
    (FortranEntries.find? fun e => e.name = some "doshade") =
      some { name := some "doshade", fn := addrOf doshade,
             numArgs := (doshade.params.length : Int) } ∧
    (FortranEntries.filter fun e => e.fn = addrOf doshade).map R_FortranMethodDef.numArgs = [6] := by
  decide

/-- C5, as stated, fails: run with a null handle, the entry point makes a host
call, the register-routines call, and that call carries the null handle. -/
theorem C5_null_handle_reaches_host :
    callsOf (R_init_SatRbedo none) freshHost =
      [HostCall.R_registerRoutines none none none (some FortranEntries) none] ∧
    ¬ (∀ c ∈ callsOf (R_init_SatRbedo none) freshHost, HostCall.handle c ≠ none) := by
  have e : callsOf (R_init_SatRbedo none) freshHost =
      [HostCall.R_registerRoutines none none none (some FortranEntries) none] := by decide
  refine ⟨e, ?_⟩
  rw [e]
  simp [HostCall.handle]

/-- C5, amended: the entry point has no check of its own.  For every handle, null
or not, its first host call is the register-routines call carrying that same
handle.  With a null handle that call is the only one: the host's
register-routines refuses the handle with its own error, which ends the entry
point before the dynamic-symbol call, and no module record changes. -/
theorem C5_null_handle_passed_to_host (h : Host) :
    (∀ dll : DllPtr, (callsOf (R_init_SatRbedo dll) h).head? =
      some (HostCall.R_registerRoutines dll none none (some FortranEntries) none)) ∧
    callsOf (R_init_SatRbedo none) h =
      [HostCall.R_registerRoutines none none none (some FortranEntries) none] ∧
    (R_init_SatRbedo none h).2 = Except.error HostError.invalidDllInfo ∧
    (R_init_SatRbedo none h).1.dlls = h.dlls := by
  refine ⟨?_, ?_, ?_, ?_⟩
  · intro dll
    cases dll with
    | none => simp [callsOf, R_init_SatRbedo, R_registerRoutines, Host.record]
    | some a =>
      cases hd : h.dlls a with
      | none => simp [callsOf, R_init_SatRbedo, R_registerRoutines, Host.record, hd]
      | some d => simp [init_calls h a d hd]
  · simp [callsOf, R_init_SatRbedo, R_registerRoutines, Host.record]
  · simp [R_init_SatRbedo, R_registerRoutines]
  · simp [R_init_SatRbedo, R_registerRoutines, Host.record]

/-- C6: the function pointer stored in the "doshade" descriptor is the address of
the declared native symbol itself; and for every six argument handles and every
behaviour of the native routines, a call to "doshade" dispatched through the
table installed by `R_init_SatRbedo` invokes that pointer with the same six
handles in the same order, so it leaves what the direct call
`doshade(a1, ..., a6)` leaves. -/
theorem C6_dispatch_is_direct_call {Mem : Type} (native : LinkName → List Nat → Mem → Mem)
    (h : Host) (a : Nat) (d : DllInfo) (hd : h.dlls a = some d)
    (a1 a2 a3 a4 a5 a6 : Nat) (m : Mem) :
    (FortranEntries.find? fun e => e.name = some "doshade").map R_FortranMethodDef.fn =
      some (DL_FUNC.addr doshade.link) ∧
    ∃ d1, (R_init_SatRbedo (some a) h).1.dlls a = some d1 ∧
      dispatch d1 Interface.Fortran "doshade" [a1, a2, a3, a4, a5, a6] =
        Dispatch.invoke (DL_FUNC.addr doshade.link) [a1, a2, a3, a4, a5, a6] ∧
      (dispatch d1 Interface.Fortran "doshade" [a1, a2, a3, a4, a5, a6]).result native m =
        some (callDirect native doshade [a1, a2, a3, a4, a5, a6] m) := by
  refine ⟨by decide, _, init_dll h a d hd, ?_, ?_⟩
  · rw [dispatch_doshade _ _ rfl]; simp [addrOf]
  · rw [dispatch_doshade _ _ rfl]
    simp [Dispatch.result, DL_FUNC.call, callDirect, addrOf]

/-- C6 at the fresh host, with a native routine that records the handles it is
given: the dispatched call and the direct call record the same six handles. -/
theorem C6_dispatch_is_direct_call_witness :
    freshHost.dlls 7 = some freshDll ∧
    ∃ d1, (R_init_SatRbedo (some 7) freshHost).1.dlls 7 = some d1 ∧
      (dispatch d1 Interface.Fortran "doshade" [11, 12, 13, 14, 15, 16]).result
          (fun _ args (_ : List Nat) => args) [] = some [11, 12, 13, 14, 15, 16] := by
  have hd : freshHost.dlls 7 = some freshDll := by decide
  obtain ⟨_, d1, h1, _, h3⟩ := C6_dispatch_is_direct_call
    (fun _ args (_ : List Nat) => args) freshHost 7 freshDll hd 11 12 13 14 15 16 []
  exact ⟨hd, d1, h1, h3⟩

/-- C7: run on a loaded module with handle `a`, `R_init_SatRbedo` returns normally
and makes exactly two host calls, both on `a`: first register-routines carrying
`FortranEntries`, then the call that switches dynamic lookup off.  Exactly one of
its calls is a register-routines call, and none comes after dynamic lookup was
switched off. -/
theorem C7_two_host_calls_in_order (h : Host) (a : Nat) (d : DllInfo)
    (hd : h.dlls a = some d) :
    (R_init_SatRbedo (some a) h).2 = Except.ok () ∧
    (R_init_SatRbedo (some a) h).1.log =
      h.log ++ [HostCall.R_registerRoutines (some a) none none (some FortranEntries) none,
                HostCall.R_useDynamicSymbols (some a) false] ∧
    (callsOf (R_init_SatRbedo (some a)) h).length = 2 ∧
    (∀ c ∈ callsOf (R_init_SatRbedo (some a)) h, HostCall.handle c = some a) ∧
    ((callsOf (R_init_SatRbedo (some a)) h).filter HostCall.isRegister).length = 1 ∧
    registerAfterDisable (callsOf (R_init_SatRbedo (some a)) h) = false := by
  refine ⟨init_ok h a d hd, init_log h a d hd, ?_, ?_, ?_, ?_⟩
  · simp [init_calls h a d hd]
  · simp [init_calls h a d hd, HostCall.handle]
  · simp [init_calls h a d hd, HostCall.isRegister]
  · simp [init_calls h a d hd, registerAfterDisable, HostCall.isRegister, HostCall.isDisable]

/-- C7 at the fresh host: the history after initialization is the two calls. -/
theorem C7_two_host_calls_in_order_witness :
    freshHost.dlls 7 = some freshDll ∧
    (R_init_SatRbedo (some 7) freshHost).1.log =
      [HostCall.R_registerRoutines (some 7) none none (some FortranEntries) none,
       HostCall.R_useDynamicSymbols (some 7) false] := by
  have hd : freshHost.dlls 7 = some freshDll := by decide
  exact ⟨hd, (C7_two_host_calls_in_order freshHost 7 freshDll hd).2.1⟩

/-- C8: the one register-routines call of `R_init_SatRbedo` passes NULL for the
.C, .Call and .External tables and `FortranEntries` for the Fortran table.  The
module's .C, .Call and .External tables are therefore what they were before, and
in a module that had nothing registered for them no name, "doshade" included, is
registered for those interfaces afterwards. -/
theorem C8_only_fortran_table (h : Host) (a : Nat) (d : DllInfo) (hd : h.dlls a = some d) :
    (callsOf (R_init_SatRbedo (some a)) h).filter HostCall.isRegister =
      [HostCall.R_registerRoutines (some a) none none (some FortranEntries) none] ∧
    ∃ d1, (R_init_SatRbedo (some a) h).1.dlls a = some d1 ∧
      d1.CSymbols = d.CSymbols ∧ d1.CallSymbols = d.CallSymbols ∧
      d1.ExternalSymbols = d.ExternalSymbols ∧
      (∀ iface name, iface ≠ Interface.Fortran →
        lookupRegistered d1 iface name = lookupRegistered d iface name) ∧
      (d.CSymbols = [] → d.CallSymbols = [] → d.ExternalSymbols = [] →
        ∀ iface name, iface ≠ Interface.Fortran → lookupRegistered d1 iface name = none) := by
  refine ⟨?_, _, init_dll h a d hd, rfl, rfl, rfl, ?_, ?_⟩
  · simp [init_calls h a d hd, HostCall.isRegister]
  · intro iface name hi
    cases iface <;> simp_all [lookupRegistered, DllInfo.table]
  · intro hc hcl he iface name hi
    cases iface <;> simp_all [lookupRegistered, DllInfo.table]

/-- C8 at the fresh host: afterwards "doshade" is registered for none of the .C,
.Call and .External interfaces. -/
theorem C8_only_fortran_table_witness :
    freshHost.dlls 7 = some freshDll ∧
    ∃ d1, (R_init_SatRbedo (some 7) freshHost).1.dlls 7 = some d1 ∧
      lookupRegistered d1 Interface.C "doshade" = none ∧
      lookupRegistered d1 Interface.Call "doshade" = none ∧
      lookupRegistered d1 Interface.External "doshade" = none := by
  have hd : freshHost.dlls 7 = some freshDll := by decide
  obtain ⟨_, d1, h1, _, _, _, _, h6⟩ := C8_only_fortran_table freshHost 7 freshDll hd
  exact ⟨hd, d1, h1, h6 rfl rfl rfl _ _ (by decide), h6 rfl rfl rfl _ _ (by decide),
    h6 rfl rfl rfl _ _ (by decide)⟩

/-- C9: `FortranEntries` has two elements; its last has a null name, a null
function pointer and arity 0; no element before the last has a null name.  The
scan from index 0 for the first null-named element therefore never reads past
the end, stops at index 1, which is inside the array, and the entries before
that index are exactly one. -/
theorem C9_sentinel_terminated :
    FortranEntries.length = 2 ∧
    FortranEntries.getLast? =
      some { name := none, fn := DL_FUNC.null, numArgs := 0 } ∧
    (FortranEntries.dropLast.all fun e => decide (e.name ≠ none)) = true ∧
    scanRoutines FortranEntries 0 = some 1 ∧
    1 < FortranEntries.length ∧
    ((scanRoutines FortranEntries 0).map fun num => (FortranEntries.take num).length) = some 1 := by
  decide

end SatRbedo
